import Mathlib

/-!
Verification of the token lifecycle and exchange protocol of
`drfpasswordless` (django-rest-framework-passwordless).

The HTTP views (`views.py`) and the migration fixing the `CallbackToken.key`
column are embedded directly from the source.  The serializer-level matcher,
the issuance helper `create_callback_token_for_user` and the numeric token
generator are not part of the provided sources (only their callers are), so
they are modelled from the specification; each such definition carries a
doc comment starting with `Modelled from the spec:`.

Machine state (token store, users, session tokens) is passed explicitly;
Django ORM queries become list operations; a raised `ValidationError`
becomes the `Except.error` branch carrying the error detail string.
-/

/-- Alias channels supported by the system: `to_alias_type` is one of
EMAIL or MOBILE. -/
inductive AliasType
  | email
  | mobile
deriving DecidableEq, Repr

/-- A persisted `CallbackToken` row: `{key, user, to_alias_type, to_alias,
is_active, created_at}`.  Timestamps are natural numbers (minutes). -/
structure CallbackToken where
  key : String
  userId : Nat
  aliasType : AliasType
  toAlias : String
  isActive : Bool
  createdAt : Nat
deriving DecidableEq, Repr

/-- Internal failure taxonomy of the token matcher. -/
inductive TokenError
  | InvalidOrExpiredToken
  | AmbiguousToken
  | TokenUserMismatch
deriving DecidableEq, Repr

/-- An HTTP response as observed by the external caller: a status code and
the response body (the `detail` payload, or the token key on auth success). -/
structure HttpResponse where
  status : Nat
  detail : String
deriving DecidableEq, Repr

/-- A DRF session credential (`rest_framework.authtoken.models.Token`):
one key per user. -/
structure AuthToken where
  userId : Nat
  key : String
deriving DecidableEq, Repr

/-- The slice of a Django user record that the views touch:
`set_unusable_password` flips `hasUsablePassword` off. -/
structure UserRecord where
  id : Nat
  hasUsablePassword : Bool
deriving DecidableEq, Repr

/-- Mutable state seen by the auth-exchange view: the user table and the
DRF auth-token table. -/
structure AuthState where
  users : List UserRecord
  authTokens : List AuthToken
deriving DecidableEq, Repr

/-- Default `TOKEN_EXPIRY_MINUTES` from the configuration. -/
def DEFAULT_TOKEN_EXPIRY_MINUTES : Nat := 15

/-- Default `TOKEN_LENGTH`; the migration pins `max_length=6` on the
`key` column. -/
def TOKEN_LENGTH : Nat := 6

/-- Modelled from the spec: the matcher's store query predicate (§4.3 step 1)
— `key == presented_key`, `to_alias_type == alias_type`, `is_active == true`,
and `created_at` within the expiry window, inclusively
(`created_at + window >= now`). -/
def matchableToken (now win : Nat) (key : String) (at_ : AliasType)
    (t : CallbackToken) : Bool :=
  t.key == key && t.aliasType == at_ && t.isActive &&
    decide (now ≤ t.createdAt + win)

/-- Modelled from the spec: single-use consumption (§4.3 step 5) — the
matched token is marked `is_active = false` in the store. -/
def consumeToken (t : CallbackToken) (store : List CallbackToken) :
    List CallbackToken :=
  store.map (fun x => if x = t then { x with isActive := false } else x)

/-- Modelled from the spec: the Token Matcher (§4.3), which lives in the
repository's serializers (not under the provided sources).  Zero matches
fail with `InvalidOrExpiredToken`; more than one match fails with
`AmbiguousToken`; a unique match is checked against the optional expected
user (`TokenUserMismatch`) and then consumed. -/
def matchToken (now win : Nat) (key : String) (at_ : AliasType)
    (expected : Option Nat) (store : List CallbackToken) :
    Except TokenError (Nat × List CallbackToken) :=
  match store.filter (matchableToken now win key at_) with
  | [] => .error .InvalidOrExpiredToken
  | [t] =>
    match expected with
    | none => .ok (t.userId, consumeToken t store)
    | some u =>
      if t.userId = u then .ok (t.userId, consumeToken t store)
      else .error .TokenUserMismatch
  | _ :: _ :: _ => .error .AmbiguousToken

/-- Modelled from the spec: `create_callback_token_for_user` (§4.2, in the
repository's `utils.py`, not under the provided sources) — deactivates all
currently active tokens for `(user, alias_type)`, persists a fresh active
token with the generated key, and returns it.  `genKey` stands for the
generator's random output. -/
def create_callback_token_for_user (genKey : String) (now : Nat)
    (userId : Nat) (at_ : AliasType) (toAlias : String)
    (store : List CallbackToken) : CallbackToken × List CallbackToken :=
  let deactivated := store.map (fun x =>
    if x.userId = userId ∧ x.aliasType = at_ then { x with isActive := false }
    else x)
  let t : CallbackToken := ⟨genKey, userId, at_, toAlias, true, now⟩
  (t, t :: deactivated)

/-! ## The numeric token generator

`generate_numeric_token` is the default for the `key` column in migration
`0002_callbacktoken_remove_unique.py` (`models.CharField(default=
drfpasswordless.models.generate_numeric_token, max_length=6)`); its body
lives in `models.py`, which is not among the provided sources. -/

/-- Decimal digits of `n`, least-significant first, driven by explicit fuel
so that the definition is structurally recursive and kernel-evaluable. -/
def natDigitsRevAux : Nat → Nat → List Char
  | _, 0 => []
  | n, fuel + 1 =>
    if n = 0 then []
    else Char.ofNat (48 + n % 10) :: natDigitsRevAux (n / 10) fuel

/-- The decimal representation of `n` as a character list — Python's
`str(n)` for a non-negative integer. -/
def natReprList (n : Nat) : List Char :=
  if n = 0 then ['0'] else (natDigitsRevAux n n).reverse

/-- Modelled from the spec: `generate_numeric_token` (§4.1, in the
repository's `models.py`, not under the provided sources) — a random
numeric string of the configured fixed length, left-padded with zeros so
the length is always exact (`str(random_value).zfill(length)`).  `r`
stands for the random draw. -/
def generate_numeric_token (len r : Nat) : String :=
  let ds := natReprList (r % 10 ^ len)
  String.mk (List.replicate (len - ds.length) '0' ++ ds)

/-! ## The HTTP views (`views.py`)

`serializer.is_valid(raise_exception=True)` is DRF's validation entry
point: it returns `True` when validation passed and raises a
`ValidationError` carrying the serializer's error detail otherwise (it can
return `False` only when `raise_exception` is false).  A view's `post`
therefore returns `Except String …`: `.error d` is a raised validation
exception with detail `d`, handled outside the view. -/

/-- DRF `Serializer.is_valid(raise_exception=…)`: the serializer's run is
`validation` (its validated payload, or its error detail). -/
def is_valid (raiseException : Bool) (validation : Except String α) :
    Except String Bool :=
  match validation with
  | .ok _ => .ok true
  | .error e => if raiseException then .error e else .ok false

/-- `Token.objects.get_or_create(user=user)`: returns the user's existing
auth token, or persists a fresh one with key `freshKey`; the boolean is
Django's `created` flag. -/
def get_or_create_authToken (uid : Nat) (freshKey : String)
    (toks : List AuthToken) : AuthToken × Bool × List AuthToken :=
  match toks.find? (fun t => t.userId == uid) with
  | some t => (t, false, toks)
  | none => (⟨uid, freshKey⟩, true, ⟨uid, freshKey⟩ :: toks)

/-- `user.set_unusable_password()`. -/
def set_unusable_password (u : UserRecord) : UserRecord :=
  { u with hasUsablePassword := false }

/-- Body of the trailing generic failure response in
`AbstractBaseObtainAuthToken.post`. -/
def GENERIC_LOGIN_FAILURE_DETAIL : String :=
  "Couldn\x27t log you in. Try again later."

/-- Body of the trailing generic failure response in
`VerifyAliasFromCallbackToken.post`. -/
def GENERIC_VERIFY_FAILURE_DETAIL : String :=
  "We couldn\x27t verify this alias. Try again later."

/-- `AbstractBaseObtainAuthToken.post` (`views.py` lines 143-161):
validate with `raise_exception=True`; on success `get_or_create` the auth
token, call `set_unusable_password` on the user exactly when the auth
token was `created`, and answer `200 {token: key}` (`get_or_create` always
returns a token object, so `if token:` is taken).  The `else` branch and
the trailing generic `400` are kept as written in the source. -/
def obtainAuthTokenPost (validation : Except String Nat) (freshKey : String)
    (st : AuthState) : Except String (HttpResponse × AuthState) :=
  match is_valid true validation with
  | .error e => .error e
  | .ok true =>
    match validation with
    | .ok uid =>
      let r := get_or_create_authToken uid freshKey st.authTokens
      let users2 :=
        if r.2.1 then
          st.users.map (fun u => if u.id = uid then set_unusable_password u else u)
        else st.users
      .ok (⟨200, r.1.key⟩, ⟨users2, r.2.2⟩)
    | .error _ => .ok (⟨400, GENERIC_LOGIN_FAILURE_DETAIL⟩, st)
  | .ok false => .ok (⟨400, GENERIC_LOGIN_FAILURE_DETAIL⟩, st)

/-- `VerifyAliasFromCallbackToken.post` (`views.py` lines 183-192):
validate with `raise_exception=True`; on success answer
`200 {detail: "Alias verified."}`; the `else` branch and the trailing
generic `400` are kept as written in the source. -/
def verifyAliasPost (validation : Except String Unit) :
    Except String HttpResponse :=
  match is_valid true validation with
  | .error e => .error e
  | .ok true => .ok ⟨200, "Alias verified."⟩
  | .ok false => .ok ⟨400, GENERIC_VERIFY_FAILURE_DETAIL⟩

/-- `AbstractBaseObtainCallbackToken.post` (`views.py` lines 48-71): reject
with an empty-bodied `404` when the endpoint's alias type is not among the
enabled auth types; otherwise validate (`raise_exception=True`), create and
persist the callback token, attempt the transport send, and answer `200`
with `success_response` or `400` with `failure_response` depending on the
send result.  The written-but-unreachable `else` branch returns the
serializer's default `error_messages` with `400`. -/
def obtainCallbackTokenPost (successR failureR : String) (at_ : AliasType)
    (enabled : List AliasType) (validation : Except String Nat)
    (toAlias genKey : String) (now : Nat) (sendSuccess : Bool)
    (store : List CallbackToken) :
    Except String (HttpResponse × List CallbackToken) :=
  if enabled.contains at_ = false then
    .ok (⟨404, ""⟩, store)
  else
    match is_valid true validation with
    | .error e => .error e
    | .ok true =>
      match validation with
      | .ok uid =>
        let r := create_callback_token_for_user genKey now uid at_ toAlias store
        if sendSuccess then .ok (⟨200, successR⟩, r.2)
        else .ok (⟨400, failureR⟩, r.2)
      | .error e => .error e
    | .ok false => .ok (⟨400, "serializer.error_messages"⟩, store)

/-! ## The redemption pipelines (serializer + view + exception handler) -/

/-- Modelled from the spec: the single generic user-facing failure detail
the callback-token auth serializer raises for every matcher failure (§7:
matcher failures are collapsed to one generic message; the serializers are
not under the provided sources). -/
def AUTH_SERIALIZER_FAILURE_DETAIL : String := "Could not log you in."

/-- Modelled from the spec: the single generic user-facing failure detail
the verification serializer raises for every matcher failure (§7). -/
def VERIFY_SERIALIZER_FAILURE_DETAIL : String :=
  "Could not verify this alias."

/-- Modelled from the spec: `CallbackTokenAuthSerializer.validate` — run
the matcher with no expected user; on success yield the resolved user and
the consumed store, on any matcher failure raise the one generic detail. -/
def callbackTokenAuth_validate (now win : Nat) (key : String)
    (at_ : AliasType) (store : List CallbackToken) :
    Except String (Nat × List CallbackToken) :=
  match matchToken now win key at_ none store with
  | .ok r => .ok r
  | .error _ => .error AUTH_SERIALIZER_FAILURE_DETAIL

/-- Modelled from the spec: `CallbackTokenVerificationSerializer.validate`
— run the matcher expecting the independently authenticated requesting
user; on any matcher failure raise the one generic detail. -/
def callbackTokenVerification_validate (now win : Nat) (key : String)
    (at_ : AliasType) (reqUser : Nat) (store : List CallbackToken) :
    Except String (List CallbackToken) :=
  match matchToken now win key at_ (some reqUser) store with
  | .ok r => .ok r.2
  | .error _ => .error VERIFY_SERIALIZER_FAILURE_DETAIL

/-- DRF's exception handler: a response passes through, a raised
`ValidationError` detail becomes a `400` response carrying that detail. -/
def drfHandle (r : Except String HttpResponse) : HttpResponse :=
  match r with
  | .ok resp => resp
  | .error e => ⟨400, e⟩

/-- The full auth-redemption pipeline as observed externally:
serializer validation, `ObtainAuthTokenFromCallbackToken.post`, then the
exception handler. -/
def authRedeemResponse (now win : Nat) (key : String) (at_ : AliasType)
    (store : List CallbackToken) (freshKey : String) (st : AuthState) :
    HttpResponse :=
  drfHandle (Except.map Prod.fst
    (obtainAuthTokenPost
      (Except.map Prod.fst (callbackTokenAuth_validate now win key at_ store))
      freshKey st))

/-- The full verification-redemption pipeline as observed externally:
serializer validation, `VerifyAliasFromCallbackToken.post`, then the
exception handler. -/
def verifyRedeemResponse (now win : Nat) (key : String) (at_ : AliasType)
    (reqUser : Nat) (store : List CallbackToken) : HttpResponse :=
  drfHandle (verifyAliasPost
    (Except.map (fun _ => ())
      (callbackTokenVerification_validate now win key at_ reqUser store)))

/-! ## The active-token invariant -/

/-- Two rows clash when both are active for the same `(user, alias_type)`
pair. -/
def activePairClash (a b : CallbackToken) : Prop :=
  a.isActive = true ∧ b.isActive = true ∧
    a.userId = b.userId ∧ a.aliasType = b.aliasType

/-- At most one token per `(user, alias_type)` pair is active in the
store. -/
def atMostOneActivePerPair (store : List CallbackToken) : Prop :=
  store.Pairwise (fun a b => ¬ activePairClash a b)

/-! ## Helper lemmas -/

theorem char_ofNat_digit (d : Nat) (hd : d < 10) :
    (Char.ofNat (48 + d)).isDigit = true := by
  interval_cases d <;> decide

theorem natDigitsRevAux_length : ∀ (fuel n len : Nat), n ≤ fuel →
    n < 10 ^ len → (natDigitsRevAux n fuel).length ≤ len := by
  intro fuel
  induction fuel with
  | zero => intro n len _ _; simp [natDigitsRevAux]
  | succ f ih =>
    intro n len h1 h2
    by_cases hn : n = 0
    · simp [natDigitsRevAux, hn]
    · cases len with
      | zero =>
        exfalso
        have : n < 1 := by simpa using h2
        omega
      | succ l =>
        have hdiv : n / 10 ≤ f := by
          have := Nat.div_lt_self (Nat.pos_of_ne_zero hn)
            (by norm_num : 1 < 10)
          omega
        have hlt : n / 10 < 10 ^ l := by
          rw [Nat.div_lt_iff_lt_mul (by norm_num : 0 < 10)]
          calc n < 10 ^ (l + 1) := h2
            _ = 10 ^ l * 10 := by ring
        have := ih (n / 10) l hdiv hlt
        simp [natDigitsRevAux, hn]
        omega

theorem natDigitsRevAux_digits : ∀ (fuel n : Nat),
    ∀ c ∈ natDigitsRevAux n fuel, c.isDigit = true := by
  intro fuel
  induction fuel with
  | zero => intro n c hc; simp [natDigitsRevAux] at hc
  | succ f ih =>
    intro n c hc
    by_cases hn : n = 0
    · simp [natDigitsRevAux, hn] at hc
    · simp only [natDigitsRevAux, hn, if_false, List.mem_cons] at hc
      rcases hc with hc | hc
      · subst hc
        exact char_ofNat_digit (n % 10) (Nat.mod_lt _ (by norm_num))
      · exact ih (n / 10) c hc

theorem natReprList_length_le (n len : Nat) (h0 : 0 < len)
    (h : n < 10 ^ len) : (natReprList n).length ≤ len := by
  by_cases hn : n = 0
  · simp [natReprList, hn]; omega
  · simp only [natReprList, hn, if_false, List.length_reverse]
    exact natDigitsRevAux_length n n len (Nat.le_refl n) h

theorem natReprList_digits (n : Nat) :
    ∀ c ∈ natReprList n, c.isDigit = true := by
  intro c hc
  by_cases hn : n = 0
  · simp [natReprList, hn] at hc
    subst hc; decide
  · simp only [natReprList, hn, if_false, List.mem_reverse] at hc
    exact natDigitsRevAux_digits n n c hc

/-! ## C10: generated token length and character set -/

/-- C10: every key the generator can produce is a string of exactly
`len` characters (`TOKEN_LENGTH`, default 6), all of them numeric digits,
left-padding with zeros being built into `generate_numeric_token`. -/
theorem generated_token_length_and_digits (len r : Nat) (h : 0 < len) :
    (generate_numeric_token len r).length = len ∧
    ∀ c ∈ (generate_numeric_token len r).data, c.isDigit = true := by
  have hmod : r % 10 ^ len < 10 ^ len :=
    Nat.mod_lt _ (Nat.pos_pow_of_pos len (by norm_num))
  have hlen := natReprList_length_le (r % 10 ^ len) len h hmod
  constructor
  · show (String.mk _).length = len
    simp only [String.length, List.length_append, List.length_replicate]
    omega
  · intro c hc
    simp only [generate_numeric_token, List.mem_append,
      List.mem_replicate] at hc
    rcases hc with ⟨_, hc⟩ | hc
    · subst hc; decide
    · exact natReprList_digits _ c hc

/-- Witness for C10 at the default `TOKEN_LENGTH = 6`. -/
theorem generated_token_length_and_digits_witness :
    0 < TOKEN_LENGTH ∧
      (generate_numeric_token TOKEN_LENGTH 7).length = TOKEN_LENGTH :=
  ⟨by decide, (generated_token_length_and_digits TOKEN_LENGTH 7 (by decide)).1⟩

/-! ## C9: disabled alias types are rejected with 404 before anything runs -/

/-- C9: when the endpoint's alias type is not among the enabled alias
types, `AbstractBaseObtainCallbackToken.post` answers an empty `404` and
the token store is returned unchanged — no token is created, and since
`validation` is arbitrary (it may even be a failure) neither validation
nor its exception is ever reached. -/
theorem disabled_alias_type_rejected (successR failureR : String)
    (at_ : AliasType) (enabled : List AliasType)
    (validation : Except String Nat) (toAlias genKey : String) (now : Nat)
    (sendSuccess : Bool) (store : List CallbackToken)
    (h : enabled.contains at_ = false) :
    obtainCallbackTokenPost successR failureR at_ enabled validation
      toAlias genKey now sendSuccess store =
      Except.ok (⟨404, ""⟩, store) := by
  unfold obtainCallbackTokenPost
  rw [h]
  simp

/-- Witness for C9: a mobile request while only EMAIL is enabled, carrying
an already-failing serializer, still yields the 404 with no state change. -/
theorem disabled_alias_type_rejected_witness :
    ([AliasType.email].contains AliasType.mobile = false) ∧
      obtainCallbackTokenPost "ok" "fail" AliasType.mobile [AliasType.email]
        (Except.error "invalid") "a@b" "123456" 0 true [] =
        Except.ok (⟨404, ""⟩, []) :=
  ⟨by decide,
    disabled_alias_type_rejected "ok" "fail" AliasType.mobile
      [AliasType.email] (Except.error "invalid") "a@b" "123456" 0 true []
      (by decide)⟩

/-! ## C6: issuance is not rolled back on delivery failure -/

/-- C6: with the alias type enabled and a valid request, when the
transport send fails `AbstractBaseObtainCallbackToken.post` answers `400`
with the failure message, yet the state it returns is exactly the
post-issuance store: the newly created token is persisted before the send
is attempted, is a member of the returned store, is active, and is the
only active token for its `(user, alias_type)` pair. -/
theorem token_persists_on_delivery_failure (successR failureR : String)
    (at_ : AliasType) (enabled : List AliasType) (uid : Nat)
    (toAlias genKey : String) (now : Nat) (store : List CallbackToken)
    (henabled : enabled.contains at_ = true) :
    obtainCallbackTokenPost successR failureR at_ enabled (Except.ok uid)
        toAlias genKey now false store =
      Except.ok (⟨400, failureR⟩,
        (create_callback_token_for_user genKey now uid at_ toAlias store).2) ∧
    (create_callback_token_for_user genKey now uid at_ toAlias store).1 ∈
      (create_callback_token_for_user genKey now uid at_ toAlias store).2 ∧
    ((create_callback_token_for_user genKey now uid at_ toAlias store).1).isActive
        = true ∧
    ∀ x ∈ (create_callback_token_for_user genKey now uid at_ toAlias store).2,
      x.isActive = true → x.userId = uid → x.aliasType = at_ →
      x = (create_callback_token_for_user genKey now uid at_ toAlias store).1 := by
  refine ⟨?_, ?_, rfl, ?_⟩
  · unfold obtainCallbackTokenPost
    rw [henabled]
    simp [is_valid]
  · simp [create_callback_token_for_user]
  · intro x hx hact huid hat
    simp only [create_callback_token_for_user, List.mem_cons,
      List.mem_map] at hx
    rcases hx with hx | ⟨y, _, hy⟩
    · exact hx
    · exfalso
      by_cases hmatch : y.userId = uid ∧ y.aliasType = at_
      · rw [if_pos hmatch] at hy
        subst hy
        simp at hact
      · rw [if_neg hmatch] at hy
        subst hy
        exact hmatch ⟨huid, hat⟩

/-- Witness for C6: a failed email send still leaves the fresh token
persisted and active. -/
theorem token_persists_on_delivery_failure_witness :
    obtainCallbackTokenPost "sent" "Unable to email you a login code. Try again later."
        AliasType.email [AliasType.email] (Except.ok 1) "a@b" "482913" 3 false [] =
      Except.ok (⟨400, "Unable to email you a login code. Try again later."⟩,
        [⟨"482913", 1, AliasType.email, "a@b", true, 3⟩]) :=
  (token_persists_on_delivery_failure "sent"
    "Unable to email you a login code. Try again later." AliasType.email
    [AliasType.email] 1 "a@b" "482913" 3 [] (by decide)).1

/-! ## C7: the expiry test is inclusive at the boundary -/

/-- C7: an active token is matchable exactly while
`created_at + window >= now`: presenting it at or before the boundary
(inclusive) succeeds and consumes it, presenting it strictly after the
window has elapsed yields `InvalidOrExpiredToken` even though it was never
consumed. -/
theorem expiry_window_inclusive_boundary (now win : Nat)
    (t : CallbackToken) (hactive : t.isActive = true) :
    (now ≤ t.createdAt + win →
      matchToken now win t.key t.aliasType none [t] =
        Except.ok (t.userId, [{ t with isActive := false }])) ∧
    (t.createdAt + win < now →
      matchToken now win t.key t.aliasType none [t] =
        Except.error TokenError.InvalidOrExpiredToken) := by
  constructor
  · intro hle
    have hm : matchableToken now win t.key t.aliasType t = true := by
      simp [matchableToken, hactive, hle]
    simp [matchToken, List.filter, hm, consumeToken]
  · intro hlt
    have hm : matchableToken now win t.key t.aliasType t = false := by
      simp only [matchableToken, hactive, beq_self_eq_true, Bool.and_true,
        Bool.true_and, decide_eq_false_iff_not]
      omega
    simp [matchToken, List.filter, hm]

/-- Witness for C7 at the default 15-minute window: a token created at
minute 0 is still redeemable at exactly minute 15 and dead at minute 16. -/
theorem expiry_window_inclusive_boundary_witness :
    matchToken 15 DEFAULT_TOKEN_EXPIRY_MINUTES "482913" AliasType.email none
        [⟨"482913", 1, AliasType.email, "a@b", true, 0⟩] =
      Except.ok (1, [⟨"482913", 1, AliasType.email, "a@b", false, 0⟩]) ∧
    matchToken 16 DEFAULT_TOKEN_EXPIRY_MINUTES "482913" AliasType.email none
        [⟨"482913", 1, AliasType.email, "a@b", true, 0⟩] =
      Except.error TokenError.InvalidOrExpiredToken :=
  ⟨(expiry_window_inclusive_boundary 15 DEFAULT_TOKEN_EXPIRY_MINUTES
      ⟨"482913", 1, AliasType.email, "a@b", true, 0⟩ rfl).1 (by decide),
    (expiry_window_inclusive_boundary 16 DEFAULT_TOKEN_EXPIRY_MINUTES
      ⟨"482913", 1, AliasType.email, "a@b", true, 0⟩ rfl).2 (by decide)⟩

/-! ## C8: ambiguous matches fail, never resolved by picking one -/

/-- C8: whenever more than one active, unexpired token matches the
presented `(key, alias_type)`, the matcher fails with `AmbiguousToken` —
in particular it never returns a resolved user. -/
theorem ambiguous_match_fails (now win : Nat) (key : String)
    (at_ : AliasType) (expected : Option Nat) (store : List CallbackToken)
    (h : 2 ≤ (store.filter (matchableToken now win key at_)).length) :
    matchToken now win key at_ expected store =
        Except.error TokenError.AmbiguousToken ∧
    ∀ u store2, matchToken now win key at_ expected store ≠
        Except.ok (u, store2) := by
  have hmain : matchToken now win key at_ expected store =
      Except.error TokenError.AmbiguousToken := by
    rcases hf : store.filter (matchableToken now win key at_) with
      _ | ⟨t1, _ | ⟨t2, rest⟩⟩
    · rw [hf] at h; simp at h
    · rw [hf] at h; simp at h
    · simp [matchToken, hf]
  exact ⟨hmain, fun u store2 hok => by rw [hmain] at hok; exact absurd hok (by simp)⟩

/-- Witness for C8: two distinct users hold the same active key (the
migration dropped uniqueness of `key`), and redemption fails ambiguous. -/
theorem ambiguous_match_fails_witness :
    matchToken 0 15 "111111" AliasType.email none
        [⟨"111111", 1, AliasType.email, "a@b", true, 0⟩,
         ⟨"111111", 2, AliasType.email, "c@d", true, 0⟩] =
      Except.error TokenError.AmbiguousToken :=
  (ambiguous_match_fails 0 15 "111111" AliasType.email none
    [⟨"111111", 1, AliasType.email, "a@b", true, 0⟩,
     ⟨"111111", 2, AliasType.email, "c@d", true, 0⟩] (by decide)).1

/-! ## Matcher decomposition helpers -/

theorem matchToken_ok_decomp (now win : Nat) (key : String)
    (at_ : AliasType) (expected : Option Nat) (store : List CallbackToken)
    (u : Nat) (store2 : List CallbackToken)
    (h : matchToken now win key at_ expected store = Except.ok (u, store2)) :
    ∃ t, store.filter (matchableToken now win key at_) = [t] ∧
      u = t.userId ∧ store2 = consumeToken t store := by
  rcases hf : store.filter (matchableToken now win key at_) with
    _ | ⟨t, _ | ⟨t2, rest⟩⟩
  · simp [matchToken, hf] at h
  · refine ⟨t, rfl, ?_⟩
    cases expected with
    | none =>
      simp [matchToken, hf] at h
      exact ⟨h.1.symm, h.2.symm⟩
    | some u0 =>
      by_cases ht : t.userId = u0
      · simp [matchToken, hf, ht] at h
        exact ⟨by rw [ht]; exact h.1.symm, h.2.symm⟩
      · simp [matchToken, hf, ht] at h
  · simp [matchToken, hf] at h

theorem filter_singleton_unique (p : CallbackToken → Bool)
    (store : List CallbackToken) (t : CallbackToken)
    (hf : store.filter p = [t]) :
    ∀ x ∈ store, p x = true → x = t := by
  intro x hx hpx
  have hx2 : x ∈ store.filter p := List.mem_filter.mpr ⟨hx, hpx⟩
  rw [hf] at hx2
  simpa using hx2

theorem matchableToken_inactive (now win : Nat) (key : String)
    (at_ : AliasType) (x : CallbackToken) :
    matchableToken now win key at_ { x with isActive := false } = false := by
  simp [matchableToken]

/-! ## C2: a valid token is consumable exactly once -/

/-- C2: whenever a presentation of `(key, alias_type)` succeeds, the
matched token has been marked inactive in the returned store, and an
immediate second presentation of the same key against that store fails
with `InvalidOrExpiredToken`. -/
theorem token_single_use (now win : Nat) (key : String) (at_ : AliasType)
    (store : List CallbackToken) (u : Nat) (store2 : List CallbackToken)
    (h : matchToken now win key at_ none store = Except.ok (u, store2)) :
    matchToken now win key at_ none store2 =
      Except.error TokenError.InvalidOrExpiredToken := by
  obtain ⟨t, hf, -, hst⟩ := matchToken_ok_decomp now win key at_ none store
    u store2 h
  have huniq := filter_singleton_unique (matchableToken now win key at_)
    store t hf
  have hnil : store2.filter (matchableToken now win key at_) = [] := by
    subst hst
    rw [List.filter_eq_nil_iff]
    intro x hx
    simp only [consumeToken, List.mem_map] at hx
    obtain ⟨y, hy, rfl⟩ := hx
    by_cases hyt : y = t
    · subst hyt
      simp [matchableToken_inactive]
    · rw [if_neg hyt]
      intro hmt
      exact hyt (huniq y hy hmt)
  simp [matchToken, hnil]

/-- Witness for C2: the scenario of spec §8 — key `"482913"` for user 1
redeems once, and the immediate second presentation fails. -/
theorem token_single_use_witness :
    matchToken 0 15 "482913" AliasType.email none
        [⟨"482913", 1, AliasType.email, "a@b", true, 0⟩] =
      Except.ok (1, [⟨"482913", 1, AliasType.email, "a@b", false, 0⟩]) ∧
    matchToken 0 15 "482913" AliasType.email none
        [⟨"482913", 1, AliasType.email, "a@b", false, 0⟩] =
      Except.error TokenError.InvalidOrExpiredToken :=
  ⟨by rfl,
    token_single_use 0 15 "482913" AliasType.email
      [⟨"482913", 1, AliasType.email, "a@b", true, 0⟩] 1
      [⟨"482913", 1, AliasType.email, "a@b", false, 0⟩] (by rfl)⟩

/-! ## C3: issuance supersedes prior active tokens for the pair -/

theorem pairwise_map_deactivate (f : CallbackToken → CallbackToken)
    (hf : ∀ x, f x = x ∨ f x = { x with isActive := false })
    (l : List CallbackToken) (h : atMostOneActivePerPair l) :
    atMostOneActivePerPair (l.map f) := by
  refine List.Pairwise.map f ?_ h
  intro a b hab hclash
  refine hab ?_
  have hfa : f a = a := by
    rcases hf a with h1 | h1
    · exact h1
    · exfalso
      rw [h1] at hclash
      exact absurd hclash.1 (by simp)
  have hfb : f b = b := by
    rcases hf b with h1 | h1
    · exact h1
    · exfalso
      rw [h1] at hclash
      exact absurd hclash.2.1 (by simp)
  rw [hfa, hfb] at hclash
  exact hclash

/-- C3: issuing a fresh token for `(user, alias_type)` deactivates every
previously active token for that pair: afterwards the new token is the
only active token for the pair, the at-most-one-active invariant is
preserved by issuance, the superseded earlier token (whose key differs
from the fresh key, all matchable holders of that key belonging to this
user) redeems to `InvalidOrExpiredToken`, and the invariant is also
preserved by every successful matcher run, so it holds after any
operation. -/
theorem issuance_supersedes_prior_tokens (genKey : String) (now win : Nat)
    (uid : Nat) (at_ : AliasType) (toAlias : String)
    (store : List CallbackToken) (t : CallbackToken)
    (ht : t ∈ store) (hactive : t.isActive = true)
    (hpair : t.userId = uid ∧ t.aliasType = at_)
    (hkey : genKey ≠ t.key)
    (hown : ∀ x ∈ store,
      matchableToken now win t.key at_ x = true → x.userId = uid) :
    (∀ x ∈ (create_callback_token_for_user genKey now uid at_ toAlias store).2,
      x.isActive = true → x.userId = uid → x.aliasType = at_ →
      x = (create_callback_token_for_user genKey now uid at_ toAlias store).1) ∧
    (atMostOneActivePerPair store →
      atMostOneActivePerPair
        (create_callback_token_for_user genKey now uid at_ toAlias store).2) ∧
    matchToken now win t.key at_ none
        (create_callback_token_for_user genKey now uid at_ toAlias store).2 =
      Except.error TokenError.InvalidOrExpiredToken ∧
    (∀ now2 win2 key2 at2 expected2 u2 store3,
      matchToken now2 win2 key2 at2 expected2 store = Except.ok (u2, store3) →
      atMostOneActivePerPair store → atMostOneActivePerPair store3) := by
  refine ⟨?_, ?_, ?_, ?_⟩
  · intro x hx hact huid hat
    simp only [create_callback_token_for_user, List.mem_cons,
      List.mem_map] at hx
    rcases hx with hx | ⟨y, _, hy⟩
    · exact hx
    · exfalso
      by_cases hm : y.userId = uid ∧ y.aliasType = at_
      · rw [if_pos hm] at hy
        subst hy
        simp at hact
      · rw [if_neg hm] at hy
        subst hy
        exact hm ⟨huid, hat⟩
  · intro hstore
    simp only [create_callback_token_for_user]
    refine List.pairwise_cons.mpr ⟨?_, ?_⟩
    · intro b hb hclash
      obtain ⟨y, hy, rfl⟩ := List.mem_map.mp hb
      by_cases hm : y.userId = uid ∧ y.aliasType = at_
      · rw [if_pos hm] at hclash
        exact absurd hclash.2.1 (by simp)
      · rw [if_neg hm] at hclash
        obtain ⟨-, -, hbu, hbat⟩ := hclash
        exact hm ⟨hbu.symm, hbat.symm⟩
    · refine pairwise_map_deactivate _ (fun x => ?_) store hstore
      by_cases hm : x.userId = uid ∧ x.aliasType = at_
      · right; rw [if_pos hm]
      · left; rw [if_neg hm]
  · have hnil : ((create_callback_token_for_user genKey now uid at_ toAlias
        store).2).filter (matchableToken now win t.key at_) = [] := by
      rw [List.filter_eq_nil_iff]
      intro x hx
      simp only [create_callback_token_for_user, List.mem_cons,
        List.mem_map] at hx
      rcases hx with rfl | ⟨y, hy, rfl⟩
      · simp [matchableToken, hkey]
      · by_cases hm : y.userId = uid ∧ y.aliasType = at_
        · rw [if_pos hm]
          simp [matchableToken_inactive]
        · rw [if_neg hm]
          intro hmt
          have hmt2 := hmt
          simp only [matchableToken, Bool.and_eq_true, beq_iff_eq,
            decide_eq_true_eq] at hmt2
          obtain ⟨⟨⟨-, hat2⟩, -⟩, -⟩ := hmt2
          exact hm ⟨hown y hy hmt, hat2⟩
    simp [matchToken, hnil]
  · intro now2 win2 key2 at2 expected2 u2 store3 hok hstore
    obtain ⟨t2, -, -, hst3⟩ := matchToken_ok_decomp now2 win2 key2 at2
      expected2 store u2 store3 hok
    subst hst3
    refine pairwise_map_deactivate _ (fun x => ?_) store hstore
    by_cases hx : x = t2
    · right; rw [if_pos hx]
    · left; rw [if_neg hx]

/-- Witness for C3: after a second token `"000000"` is issued for user 1,
presenting the superseded token `"482913"` fails. -/
theorem issuance_supersedes_prior_tokens_witness :
    matchToken 0 15 "482913" AliasType.email none
        (create_callback_token_for_user "000000" 0 1 AliasType.email "a@b"
          [⟨"482913", 1, AliasType.email, "a@b", true, 0⟩]).2 =
      Except.error TokenError.InvalidOrExpiredToken :=
  (issuance_supersedes_prior_tokens "000000" 0 15 1 AliasType.email "a@b"
    [⟨"482913", 1, AliasType.email, "a@b", true, 0⟩]
    ⟨"482913", 1, AliasType.email, "a@b", true, 0⟩
    (by decide) rfl ⟨rfl, rfl⟩ (by decide) (by decide)).2.2.1

/-! ## C1: when is the password marked unusable? -/

/-- C1 counterexample: the claim says the password is marked unusable
exactly when the user is newly created by the exchange path, so an
already-existing user's password would be left unchanged by a successful
exchange.  But `AbstractBaseObtainAuthToken.post` keys the call to
`set_unusable_password` on the `created` flag of
`Token.objects.get_or_create` — the auth token, not the user (the view
never creates users).  Concretely: user 1 exists beforehand with a usable
password and no auth token; the successful exchange returns `200` and
flips the user's password to unusable, so user tables are not preserved
by successful exchanges. -/
theorem existing_user_password_cleared_on_first_exchange :
    ¬ (∀ (st : AuthState) (uid : Nat) (freshKey : String)
        (r : HttpResponse) (st2 : AuthState),
        obtainAuthTokenPost (Except.ok uid) freshKey st =
          Except.ok (r, st2) → st2.users = st.users) := by
  intro hall
  have h := hall ⟨[⟨1, true⟩], []⟩ 1 "sessionkey" ⟨200, "sessionkey"⟩
    ⟨[⟨1, false⟩], [⟨1, "sessionkey"⟩]⟩ rfl
  exact absurd h (by decide)

/-- C1 amended: in a successful exchange the resolved user's password is
marked unusable exactly when the DRF auth token is newly created for that
user (the user had no auth token yet); a user who already holds an auth
token is returned their existing key and the state — password included —
is left entirely unchanged. -/
theorem password_unusable_iff_auth_token_created (uid : Nat)
    (freshKey : String) (st : AuthState) :
    (∀ t, st.authTokens.find? (fun x => x.userId == uid) = some t →
      obtainAuthTokenPost (Except.ok uid) freshKey st =
        Except.ok (⟨200, t.key⟩, st)) ∧
    (st.authTokens.find? (fun x => x.userId == uid) = none →
      obtainAuthTokenPost (Except.ok uid) freshKey st =
        Except.ok (⟨200, freshKey⟩,
          ⟨st.users.map
            (fun u => if u.id = uid then set_unusable_password u else u),
          ⟨uid, freshKey⟩ :: st.authTokens⟩)) := by
  constructor
  · intro t hfind
    simp [obtainAuthTokenPost, is_valid, get_or_create_authToken, hfind]
  · intro hfind
    simp [obtainAuthTokenPost, is_valid, get_or_create_authToken, hfind]

/-- Witness for the amended C1: user 1 already holds auth token `"old"`
with a usable password; the exchange returns the old key and changes
nothing. -/
theorem password_unusable_iff_auth_token_created_witness :
    obtainAuthTokenPost (Except.ok 1) "freshkey"
        ⟨[⟨1, true⟩], [⟨1, "old"⟩]⟩ =
      Except.ok (⟨200, "old"⟩, ⟨[⟨1, true⟩], [⟨1, "old"⟩]⟩) :=
  (password_unusable_iff_auth_token_created 1 "freshkey"
    ⟨[⟨1, true⟩], [⟨1, "old"⟩]⟩).1 ⟨1, "old"⟩ rfl

/-! ## C5: the generic failure bodies in the redemption views are dead -/

/-- C5: because both redemption views call
`serializer.is_valid(raise_exception=True)`, every returned response is a
`200` success — the `else` branches and the trailing generic-failure
bodies are unreachable — and every invalid request instead exits by a
raised validation exception carrying the serializer's own error detail. -/
theorem generic_failure_bodies_unreachable (validation : Except String Nat)
    (vv : Except String Unit) (freshKey : String) (st : AuthState) :
    (∀ r st2, obtainAuthTokenPost validation freshKey st =
        Except.ok (r, st2) → r.status = 200) ∧
    (∀ e, validation = Except.error e →
      obtainAuthTokenPost validation freshKey st = Except.error e) ∧
    (∀ r, verifyAliasPost vv = Except.ok r →
      r = ⟨200, "Alias verified."⟩) ∧
    (∀ e, vv = Except.error e → verifyAliasPost vv = Except.error e) := by
  refine ⟨?_, ?_, ?_, ?_⟩
  · intro r st2 h
    cases validation with
    | ok uid =>
      simp [obtainAuthTokenPost, is_valid] at h
      rw [← h.1]
    | error e => simp [obtainAuthTokenPost, is_valid] at h
  · intro e he
    subst he
    simp [obtainAuthTokenPost, is_valid]
  · intro r h
    cases vv with
    | ok u =>
      simp [verifyAliasPost, is_valid] at h
      exact h.symm
    | error e => simp [verifyAliasPost, is_valid] at h
  · intro e he
    subst he
    simp [verifyAliasPost, is_valid]

/-- Witness for C5: an invalid request to each view propagates the
serializer's detail as the raised exception, never the generic bodies. -/
theorem generic_failure_bodies_unreachable_witness :
    obtainAuthTokenPost (Except.error "bad token") "k" ⟨[], []⟩ =
        Except.error "bad token" ∧
      verifyAliasPost (Except.error "bad alias") =
        Except.error "bad alias" :=
  ⟨(generic_failure_bodies_unreachable (Except.error "bad token")
      (Except.error "bad alias") "k" ⟨[], []⟩).2.1 "bad token" rfl,
    (generic_failure_bodies_unreachable (Except.error "bad token")
      (Except.error "bad alias") "k" ⟨[], []⟩).2.2.2 "bad alias" rfl⟩

/-! ## C4: failing redemptions are externally indistinguishable -/

theorem authRedeemResponse_error (now win : Nat) (key : String)
    (at_ : AliasType) (store : List CallbackToken) (freshKey : String)
    (st : AuthState) (e : TokenError)
    (h : matchToken now win key at_ none store = Except.error e) :
    authRedeemResponse now win key at_ store freshKey st =
      ⟨400, AUTH_SERIALIZER_FAILURE_DETAIL⟩ := by
  simp [authRedeemResponse, callbackTokenAuth_validate, h, Except.map,
    obtainAuthTokenPost, is_valid, drfHandle]

theorem verifyRedeemResponse_error (now win : Nat) (key : String)
    (at_ : AliasType) (reqUser : Nat) (store : List CallbackToken)
    (e : TokenError)
    (h : matchToken now win key at_ (some reqUser) store = Except.error e) :
    verifyRedeemResponse now win key at_ reqUser store =
      ⟨400, VERIFY_SERIALIZER_FAILURE_DETAIL⟩ := by
  simp [verifyRedeemResponse, callbackTokenVerification_validate, h,
    Except.map, verifyAliasPost, is_valid, drfHandle]

/-- C4: any two failing auth redemptions — whatever the internal matcher
failure (`InvalidOrExpiredToken`, `AmbiguousToken`, `TokenUserMismatch`)
and whatever the inputs — produce the identical external response, and
likewise for any two failing verification redemptions: the failure reason
cannot be distinguished from outside. -/
theorem failure_responses_indistinguishable
    (n1 w1 n2 w2 n3 w3 n4 w4 : Nat) (k1 k2 k3 k4 f1 f2 : String)
    (a1 a2 a3 a4 : AliasType) (s1 s2 s3 s4 : List CallbackToken)
    (u3 u4 : Nat) (st1 st2 : AuthState) (e1 e2 e3 e4 : TokenError)
    (h1 : matchToken n1 w1 k1 a1 none s1 = Except.error e1)
    (h2 : matchToken n2 w2 k2 a2 none s2 = Except.error e2)
    (h3 : matchToken n3 w3 k3 a3 (some u3) s3 = Except.error e3)
    (h4 : matchToken n4 w4 k4 a4 (some u4) s4 = Except.error e4) :
    authRedeemResponse n1 w1 k1 a1 s1 f1 st1 =
      authRedeemResponse n2 w2 k2 a2 s2 f2 st2 ∧
    verifyRedeemResponse n3 w3 k3 a3 u3 s3 =
      verifyRedeemResponse n4 w4 k4 a4 u4 s4 := by
  constructor
  · rw [authRedeemResponse_error n1 w1 k1 a1 s1 f1 st1 e1 h1,
      authRedeemResponse_error n2 w2 k2 a2 s2 f2 st2 e2 h2]
  · rw [verifyRedeemResponse_error n3 w3 k3 a3 u3 s3 e3 h3,
      verifyRedeemResponse_error n4 w4 k4 a4 u4 s4 e4 h4]

/-- Witness for C4 with four genuinely different internal failures: an
empty store (invalid), a duplicated key (ambiguous), a token held by a
different user (mismatch), and an expired token — the pairs of external
responses coincide. -/
theorem failure_responses_indistinguishable_witness :
    authRedeemResponse 0 15 "123456" AliasType.email [] "fk" ⟨[], []⟩ =
      authRedeemResponse 0 15 "123456" AliasType.email
        [⟨"123456", 1, AliasType.email, "a@b", true, 0⟩,
         ⟨"123456", 2, AliasType.email, "c@d", true, 0⟩] "fk" ⟨[], []⟩ ∧
    verifyRedeemResponse 0 15 "123456" AliasType.email 2
        [⟨"123456", 1, AliasType.email, "a@b", true, 0⟩] =
      verifyRedeemResponse 20 15 "123456" AliasType.email 1
        [⟨"123456", 1, AliasType.email, "a@b", true, 0⟩] :=
  failure_responses_indistinguishable 0 15 0 15 0 15 20 15 "123456"
    "123456" "123456" "123456" "fk" "fk" AliasType.email AliasType.email
    AliasType.email AliasType.email []
    [⟨"123456", 1, AliasType.email, "a@b", true, 0⟩,
     ⟨"123456", 2, AliasType.email, "c@d", true, 0⟩]
    [⟨"123456", 1, AliasType.email, "a@b", true, 0⟩]
    [⟨"123456", 1, AliasType.email, "a@b", true, 0⟩] 2 1 ⟨[], []⟩ ⟨[], []⟩
    TokenError.InvalidOrExpiredToken TokenError.AmbiguousToken
    TokenError.TokenUserMismatch TokenError.InvalidOrExpiredToken
    (by rfl) (by rfl) (by rfl) (by rfl)
